import Mathlib

/-!
Verification of the pycasperglow protocol engine.

This file gives a shallow embedding, in Lean 4, of the pure protocol and
state-decoding logic of the pycasperglow repository
(`src/pycasperglow/protocol.py`, `src/pycasperglow/device.py`,
`src/pycasperglow/const.py`), and proves or refutes the frozen claims about
it.  Python `bytes` values are modelled as `List Nat` (each entry a byte,
0–255), Python unbounded non-negative `int` as `Nat`, fallible parsing as
`Option`, and the iterative parsing loops as structural recursion on a fuel
argument initialised to a value (buffer length + 1) that is never exhausted,
since every loop iteration of the source advances the position by at least
one byte.
-/

namespace PyCasperGlow

/-- Protobuf field number for the state response sub-message
(`protocol.py`, `STATE_RESPONSE_FIELD = 19`). -/
def STATE_RESPONSE_FIELD : Nat := 19

/-- Core loop of `parse_varint` (`protocol.py`): consumes the byte list from
the current position, accumulating `result |= (byte & 0x7F) << shift`.
Returns the decoded value together with the number of bytes consumed, or
`none` for the `ValueError("Truncated varint")` raised when the buffer ends
with the continuation bit still set. -/
def parse_varint_core : List Nat → Nat → Nat → Option (Nat × Nat)
  | [], _, _ => none
  | byte :: rest, acc, shift =>
    let result := acc ||| ((byte &&& 0x7F) <<< shift)
    if byte &&& 0x80 = 0 then some (result, 1)
    else (parse_varint_core rest result (shift + 7)).map (fun p => (p.1, p.2 + 1))

/-- Model of `parse_varint(data, start)` (`protocol.py`): decode a protobuf
varint from `data` starting at offset `start`; `some (value, next_offset)`
on success, `none` for the truncated-varint `ValueError`. -/
def parse_varint (data : List Nat) (start : Nat) : Option (Nat × Nat) :=
  (parse_varint_core (data.drop start) 0 0).map (fun p => (p.1, start + p.2))

/-- Model of `encode_varint(value)` (`protocol.py`): encode a non-negative
integer as a protobuf base-128 varint, least-significant group first.  The
Python guard for negative input is vacuous over `Nat`. -/
def encode_varint (value : Nat) : List Nat :=
  if _h : value > 0x7F then ((value &&& 0x7F) ||| 0x80) :: encode_varint (value >>> 7)
  else [value]
termination_by value
decreasing_by
  simp only [Nat.shiftRight_eq_div_pow]
  exact Nat.div_lt_self (by omega) (by norm_num)

/-- A decoded protobuf-like field value: Python `int` for wire type 0,
Python `bytes` for wire type 2. -/
inductive PValue
  | varint (value : Nat)
  | bytes (data : List Nat)
deriving DecidableEq

/-- Model of `dict.setdefault(field_number, []).append(value)` on the field
map of `parse_protobuf_fields`: the map is an association list in insertion
order, and each key holds its values in arrival order. -/
def setdefault_append : List (Nat × List PValue) → Nat → PValue → List (Nat × List PValue)
  | [], key, v => [(key, [v])]
  | (k, vs) :: rest, key, v =>
    if k = key then (k, vs ++ [v]) :: rest else (k, vs) :: setdefault_append rest key v

/-- Model of `dict.get(key)` on the field map: the list of values recorded
for `key`, or `none` if the key is absent. -/
def getField : List (Nat × List PValue) → Nat → Option (List PValue)
  | [], _ => none
  | (k, vs) :: rest, key => if k = key then some vs else getField rest key

/-- Loop body of `parse_protobuf_fields` (`protocol.py`): walk the buffer
tag-by-tag from `pos`, supporting wire types 0 (varint) and 2
(length-delimited); on a truncated varint, an unsupported wire type, or an
over-long length-delimited field, stop and return the fields accumulated so
far.  The fuel argument only bounds the recursion; each iteration of the
source loop advances `pos` by at least one, so the initial fuel
`data.length + 1` is never exhausted. -/
def parse_fields_loop : Nat → List Nat → Nat → List (Nat × List PValue) → List (Nat × List PValue)
  | 0, _, _, fields => fields
  | fuel + 1, data, pos, fields =>
    if pos < data.length then
      match parse_varint data pos with
      | none => fields
      | some (tag, pos1) =>
        let field_number := tag >>> 3
        let wire_type := tag &&& 0x07
        if wire_type = 0 then
          match parse_varint data pos1 with
          | none => fields
          | some (value, pos2) =>
            parse_fields_loop fuel data pos2
              (setdefault_append fields field_number (PValue.varint value))
        else if wire_type = 2 then
          match parse_varint data pos1 with
          | none => fields
          | some (length, pos2) =>
            if pos2 + length > data.length then fields
            else
              parse_fields_loop fuel data (pos2 + length)
                (setdefault_append fields field_number (PValue.bytes ((data.drop pos2).take length)))
        else fields
    else fields

/-- Model of `parse_protobuf_fields(data)` (`protocol.py`): parse a
protobuf-like payload into the map of field number to list of values. -/
def parse_protobuf_fields (data : List Nat) : List (Nat × List PValue) :=
  parse_fields_loop (data.length + 1) data 0 []

/-- Loop body of `extract_token_from_notify` (`protocol.py`): walk the
payload tag-by-tag; return the first varint-typed field 1 value, skip
length-delimited fields, abort with `none` on a truncated varint or an
unknown wire type.  Fuel as in `parse_fields_loop`. -/
def extract_token_loop : Nat → List Nat → Nat → Option Nat
  | 0, _, _ => none
  | fuel + 1, payload, pos =>
    if pos < payload.length then
      match parse_varint payload pos with
      | none => none
      | some (tag_byte, pos1) =>
        let field_number := tag_byte >>> 3
        let wire_type := tag_byte &&& 0x07
        if wire_type = 0 then
          match parse_varint payload pos1 with
          | none => none
          | some (value, pos2) =>
            if field_number = 1 then some value
            else extract_token_loop fuel payload pos2
        else if wire_type = 2 then
          match parse_varint payload pos1 with
          | none => none
          | some (length, pos2) => extract_token_loop fuel payload (pos2 + length)
        else none
    else none

/-- Model of `extract_token_from_notify(payload)` (`protocol.py`): extract
the session token (first varint field number 1), or `none`. -/
def extract_token_from_notify (payload : List Nat) : Option Nat :=
  extract_token_loop (payload.length + 1) payload 0

/-- Model of `build_action_packet(token, action_body)` (`protocol.py`):
`b"\x08\x01" + b"\x10" + encode_varint(token) + b"\x22" +
encode_varint(len(action_body)) + action_body`. -/
def build_action_packet (token : Nat) (action_body : List Nat) : List Nat :=
  [0x08, 0x01] ++ [0x10] ++ encode_varint token ++ [0x22]
    ++ encode_varint action_body.length ++ action_body

/-- Model of `_FIELD_18_TAG` (`protocol.py`): the varint encoding of the tag
`(18 << 3) | 2`. -/
def FIELD_18_TAG : List Nat := encode_varint ((18 <<< 3) ||| 2)

/-- Model of `build_brightness_body(brightness_pct, dimming_time_ms)`
(`protocol.py`): inner content `b"\x10" + encode_varint(brightness_pct) +
b"\x18" + encode_varint(dimming_time_ms)`, wrapped as length-delimited
field 18. -/
def build_brightness_body (brightness_pct : Nat) (dimming_time_ms : Nat) : List Nat :=
  let inner := [0x10] ++ encode_varint brightness_pct ++ [0x18] ++ encode_varint dimming_time_ms
  FIELD_18_TAG ++ encode_varint inner.length ++ inner

/-- Model of `parse_state_response(notification)` (`protocol.py`): extract
and fully parse the state sub-message, which is the last length-delimited
field 19 nested inside the last length-delimited field 4 of the
notification; `none` when absent or of the wrong wire type. -/
def parse_state_response (notification : List Nat) : Option (List (Nat × List PValue)) :=
  match getField (parse_protobuf_fields notification) 4 with
  | none => none
  | some field4_values =>
    match field4_values.getLast? with
    | some (PValue.bytes field4_body) =>
      match getField (parse_protobuf_fields field4_body) STATE_RESPONSE_FIELD with
      | none => none
      | some state_values =>
        match state_values.getLast? with
        | some (PValue.bytes body) => some (parse_protobuf_fields body)
        | _ => none
    | _ => none

/-- Model of the `BatteryLevel` enum (`device.py`): the four recognised raw
battery values 3, 4, 5, 6. -/
inductive BatteryLevel
  | pct25
  | pct50
  | pct75
  | pct100
deriving DecidableEq

/-- Model of `BatteryLevel.from_raw` (`device.py`): the matching member, or
`none` if the raw value is unrecognised. -/
def BatteryLevel.from_raw : Nat → Option BatteryLevel
  | 3 => some BatteryLevel.pct25
  | 4 => some BatteryLevel.pct50
  | 5 => some BatteryLevel.pct75
  | 6 => some BatteryLevel.pct100
  | _ => none

/-- Model of the `GlowState` dataclass (`device.py`); every field starts as
`None` (here `none`). -/
structure GlowState where
  is_on : Option Bool
  brightness_level : Option Nat
  battery_level : Option BatteryLevel
  dimming_time_minutes : Option Nat
  configured_dimming_time_minutes : Option Nat
  is_paused : Option Bool
  raw_state : Option (List Nat)
deriving DecidableEq

/-- The freshly constructed `GlowState()`: all fields unknown. -/
def GlowState.init : GlowState := ⟨none, none, none, none, none, none, none⟩

/-- Sub-field 1 step of `CasperGlow._parse_state_notification`
(`device.py`): `is_on = sf1[0] == 1`, and when the result is off the paused
flag is cleared at this point. -/
def update_sf1 (s : GlowState) (fields : List (Nat × List PValue)) : GlowState :=
  match getField fields 1 with
  | some (PValue.varint v :: _) =>
    if v = 1 then { s with is_on := some true }
    else { s with is_on := some false, is_paused := some false }
  | _ => s

/-- Sub-field 2 step of `_parse_state_notification` (`device.py`):
remaining dimming time in milliseconds, stored as whole minutes. -/
def update_sf2 (s : GlowState) (fields : List (Nat × List PValue)) : GlowState :=
  match getField fields 2 with
  | some (PValue.varint v :: _) => { s with dimming_time_minutes := some (v / 60000) }
  | _ => s

/-- Sub-field 3 step of `_parse_state_notification` (`device.py`):
configured total duration in milliseconds, stored as whole minutes but only
when the reported value is non-zero. -/
def update_sf3 (s : GlowState) (fields : List (Nat × List PValue)) : GlowState :=
  match getField fields 3 with
  | some (PValue.varint v :: _) =>
    if v > 0 then { s with configured_dimming_time_minutes := some (v / 60000) } else s
  | _ => s

/-- Forcing step of `_parse_state_notification` (`device.py`): when
`is_on is False` the remaining dimming time is forced to 0; runs after the
sub-field 1–3 steps and before the sub-field 4 step. -/
def force_off_remaining (s : GlowState) : GlowState :=
  if s.is_on = some false then { s with dimming_time_minutes := some 0 } else s

/-- Sub-field 4 step of `_parse_state_notification` (`device.py`): paused
indicator, `sf4[0] != 0`. -/
def update_sf4 (s : GlowState) (fields : List (Nat × List PValue)) : GlowState :=
  match getField fields 4 with
  | some (PValue.varint v :: _) => { s with is_paused := some (v != 0) }
  | _ => s

/-- Sub-field 7 step of `_parse_state_notification` (`device.py`): nested
message whose inner field 2 is the raw battery level. -/
def update_sf7 (s : GlowState) (fields : List (Nat × List PValue)) : GlowState :=
  match getField fields 7 with
  | some (PValue.bytes bs :: _) =>
    match getField (parse_protobuf_fields bs) 2 with
    | some (PValue.varint v :: _) => { s with battery_level := BatteryLevel.from_raw v }
    | _ => s
  | _ => s

/-- Model of `CasperGlow._parse_state_notification(data)` (`device.py`) as
a pure state transformer: returns whether state data was found together
with the updated state; the sub-field steps run in source order
(1, 2, 3, forcing, 4, 7). -/
def parse_state_notification (s : GlowState) (data : List Nat) : Bool × GlowState :=
  match parse_state_response data with
  | none => (false, s)
  | some state_fields =>
    let s1 := { s with raw_state := some data }
    (true,
      update_sf7
        (update_sf4
          (force_off_remaining
            (update_sf3 (update_sf2 (update_sf1 s1 state_fields) state_fields) state_fields))
          state_fields)
        state_fields)

/-- Model of `RECONNECT_PACKET` (`const.py`): hex `080122026a00`. -/
def RECONNECT_PACKET : List Nat := [0x08, 0x01, 0x22, 0x02, 0x6a, 0x00]

/-- Model of `DIMMING_TIME_MINUTES` (`const.py`). -/
def DIMMING_TIME_MINUTES : List Nat := [15, 30, 45, 60, 90]

/-- Error outcome of a command method; `invalidArgument` models the
`ValueError` raised by input validation (the spec's `InvalidArgument`). -/
inductive GlowError
  | invalidArgument
deriving DecidableEq

/-- Model of `CasperGlow.set_dimming_time(minutes)` (`device.py`) as a pure
function of the prior state.  Results are (post state, transport writes
performed, error): validation runs before any transport interaction, so an
invalid dimming time or an unknown brightness level yields an error with no
writes and an unchanged state; on success `_execute_command` writes the
reconnect packet and then the action packet built with the session `token`
obtained during the handshake, and the configured duration is recorded. -/
def set_dimming_time (s : GlowState) (minutes : Nat) (token : Nat) :
    GlowState × List (List Nat) × Option GlowError :=
  if minutes ∈ DIMMING_TIME_MINUTES then
    match s.brightness_level with
    | none => (s, [], some GlowError.invalidArgument)
    | some brightness =>
      ({ s with configured_dimming_time_minutes := some minutes },
        [RECONNECT_PACKET,
          build_action_packet token (build_brightness_body brightness (minutes * 60000))],
        none)
  else (s, [], some GlowError.invalidArgument)

/-- State notification carrying sub-field 1 = 1 (on) and sub-field 3 =
900000 ms: field 4 wraps field 19 wraps `08 01 18 a0 f7 36`. -/
def C7_notification_on : List Nat :=
  [0x22, 0x09, 0x9a, 0x01, 0x06, 0x08, 0x01, 0x18, 0xa0, 0xf7, 0x36]

/-- State notification carrying only sub-field 1 = 3 (off), with sub-field
3 absent: field 4 wraps field 19 wraps `08 03`. -/
def C7_notification_off : List Nat :=
  [0x22, 0x05, 0x9a, 0x01, 0x02, 0x08, 0x03]

/-- State notification reporting power off with a non-zero remaining time
and a raised paused flag: field 19 body `08 03 10 a0 f7 36 20 01`
(sub-field 1 = 3, sub-field 2 = 900000, sub-field 4 = 1). -/
def C1_notification : List Nat :=
  [0x22, 0x0b, 0x9a, 0x01, 0x08, 0x08, 0x03, 0x10, 0xa0, 0xf7, 0x36, 0x20, 0x01]

/-- State notification whose sub-field 1 carries the unrecognised power
value 2: field 19 body `08 02`. -/
def C2_notification : List Nat :=
  [0x22, 0x05, 0x9a, 0x01, 0x02, 0x08, 0x02]

/-- A state in which power is known to be on. -/
def C2_start : GlowState := { GlowState.init with is_on := some true }

/-- Merging of disjoint bit ranges: if `a < 2 ^ s` then bitwise or with a
value shifted left by `s` is plain addition.  Used to read the accumulator
updates of `parse_varint` arithmetically. -/
theorem lor_shiftLeft_eq_add (a b s : Nat) (h : a < 2 ^ s) :
    a ||| (b <<< s) = a + b * 2 ^ s := by
  apply Nat.eq_of_testBit_eq
  intro i
  rw [Nat.testBit_lor, Nat.testBit_shiftLeft]
  rcases lt_or_ge i s with hi | hi
  · have hdec : (decide (i ≥ s)) = false := decide_eq_false (by omega)
    rw [hdec, Bool.false_and, Bool.or_false]
    rw [Nat.testBit_to_div_mod, Nat.testBit_to_div_mod]
    have hsplit : (a + b * 2 ^ s) / 2 ^ i = a / 2 ^ i + b * 2 ^ (s - i) := by
      have hs : b * 2 ^ s = b * 2 ^ (s - i) * 2 ^ i := by
        rw [Nat.mul_assoc, ← pow_add]
        congr 2
        omega
      rw [hs, Nat.add_mul_div_right a _ (Nat.two_pow_pos i)]
    rw [hsplit]
    have hev : b * 2 ^ (s - i) = b * 2 ^ (s - i - 1) * 2 := by
      rw [Nat.mul_assoc, ← pow_succ]
      congr 2
      omega
    rw [hev, Nat.add_mul_mod_self_right]
  · have hdec : (decide (i ≥ s)) = true := decide_eq_true hi
    rw [hdec, Bool.true_and]
    have ha : a.testBit i = false :=
      Nat.testBit_eq_false_of_lt (lt_of_lt_of_le h (Nat.pow_le_pow_right (by norm_num) hi))
    rw [ha, Bool.false_or]
    rw [Nat.testBit_to_div_mod, Nat.testBit_to_div_mod]
    have hsplit : (a + b * 2 ^ s) / 2 ^ i = b / 2 ^ (i - s) := by
      have hip : 2 ^ i = 2 ^ s * 2 ^ (i - s) := by
        rw [← pow_add]
        congr 1
        omega
      rw [hip, ← Nat.div_div_eq_div_mul]
      have h1 : (a + b * 2 ^ s) / 2 ^ s = b := by
        rw [Nat.add_mul_div_right a b (Nat.two_pow_pos s), Nat.div_eq_of_lt h, Nat.zero_add]
      rw [h1]
    rw [hsplit]

/-- Low seven bits of a byte via modulus: `byte &&& 0x7F = byte % 128`. -/
theorem and_0x7F_eq_mod (n : Nat) : n &&& 0x7F = n % 128 := by
  show n &&& (2 ^ 7 - 1) = n % 2 ^ 7
  exact Nat.and_pow_two_sub_one_eq_mod n 7

/-- Continuation bit of a small byte is clear: `n < 128 → n &&& 0x80 = 0`. -/
theorem and_0x80_eq_zero (n : Nat) (h : n < 128) : n &&& 0x80 = 0 := by
  show n &&& 2 ^ 7 = 0
  have ht : n.testBit 7 = false := by
    apply Nat.testBit_eq_false_of_lt
    have h7 : (2 : Nat) ^ 7 = 128 := by norm_num
    omega
  rw [Nat.and_two_pow, ht]
  simp

/-- Continuation bit of a continuation byte is set:
`a < 128 → (a + 128) &&& 0x80 ≠ 0`. -/
theorem add_128_and_0x80_ne (a : Nat) (h : a < 128) : (a + 128) &&& 0x80 ≠ 0 := by
  have ht : (a + 128).testBit 7 = true := by
    rw [Nat.testBit_to_div_mod]
    have hdiv : (a + 128) / 2 ^ 7 = 1 := by
      have h7 : (2 : Nat) ^ 7 = 128 := by norm_num
      omega
    rw [hdiv]
    norm_num
  intro hz
  have hz2 : (a + 128) &&& 2 ^ 7 = 0 := hz
  rw [Nat.and_two_pow, ht] at hz2
  norm_num at hz2

/-- Key varint round-trip invariant: running the decode loop over
`encode_varint v` (followed by anything) with accumulator `acc < 2 ^ shift`
yields `acc + v * 2 ^ shift` after consuming exactly the encoding. -/
theorem parse_varint_core_encode (v : Nat) :
    ∀ rest acc shift, acc < 2 ^ shift →
      parse_varint_core (encode_varint v ++ rest) acc shift
        = some (acc + v * 2 ^ shift, (encode_varint v).length) := by
  induction v using Nat.strong_induction_on with
  | _ v ih =>
    intro rest acc shift hacc
    rw [encode_varint]
    by_cases h : v > 0x7F
    · rw [dif_pos h]
      have hmod : v % 128 < 128 := Nat.mod_lt v (by norm_num)
      have hbyte : (v &&& 0x7F) ||| 0x80 = v % 128 + 128 := by
        rw [and_0x7F_eq_mod]
        calc v % 128 ||| 0x80 = v % 128 ||| (1 <<< 7) := rfl
          _ = v % 128 + 1 * 2 ^ 7 := lor_shiftLeft_eq_add (v % 128) 1 7 (by omega)
          _ = v % 128 + 128 := by norm_num
      rw [hbyte]
      simp only [List.cons_append, List.append_eq, parse_varint_core, List.length_cons]
      rw [show (v % 128 + 128) &&& 0x7F = v % 128 by
        rw [and_0x7F_eq_mod, Nat.add_mod_right, Nat.mod_eq_of_lt hmod]]
      rw [if_neg (add_128_and_0x80_ne (v % 128) hmod)]
      rw [lor_shiftLeft_eq_add acc (v % 128) shift hacc]
      have hlt : v >>> 7 < v := by
        rw [Nat.shiftRight_eq_div_pow]
        exact Nat.div_lt_self (by omega) (by norm_num)
      have hacc3 : acc + v % 128 * 2 ^ shift < 2 ^ (shift + 7) := by
        have hps : 2 ^ (shift + 7) = 2 ^ shift * 128 := by rw [pow_add]; norm_num
        rw [hps]
        have hp : 1 ≤ 2 ^ shift := Nat.one_le_two_pow
        nlinarith [Nat.mod_lt v (show 0 < 128 by norm_num)]
      rw [ih (v >>> 7) hlt rest _ (shift + 7) hacc3]
      have harith : acc + v % 128 * 2 ^ shift + v >>> 7 * 2 ^ (shift + 7)
          = acc + v * 2 ^ shift := by
        have hv : v >>> 7 = v / 128 := by
          rw [Nat.shiftRight_eq_div_pow]
        have hpow : 2 ^ (shift + 7) = 2 ^ shift * 128 := by rw [pow_add]; norm_num
        rw [hv, hpow]
        calc acc + v % 128 * 2 ^ shift + v / 128 * (2 ^ shift * 128)
            = acc + (v % 128 + 128 * (v / 128)) * 2 ^ shift := by ring
          _ = acc + v * 2 ^ shift := by rw [Nat.mod_add_div]
      simp only [Option.map_map, Option.map_some', harith]
    · rw [dif_neg h]
      have hv : v < 128 := by omega
      simp only [List.cons_append, List.nil_append, parse_varint_core, List.length_cons,
        List.length_nil]
      rw [if_pos (and_0x80_eq_zero v hv)]
      rw [show v &&& 0x7F = v by rw [and_0x7F_eq_mod, Nat.mod_eq_of_lt hv]]
      rw [lor_shiftLeft_eq_add acc v shift hacc]

/-- C5: For every non-negative integer v (at least up to 2^32, here all of
`Nat`), decoding the encoding round-trips:
`parse_varint(encode_varint(v), 0)` returns `(v, len(encode_varint(v)))`. -/
theorem claim_C5_varint_roundtrip (v : Nat) :
    parse_varint (encode_varint v) 0 = some (v, (encode_varint v).length) := by
  unfold parse_varint
  rw [List.drop_zero]
  have h := parse_varint_core_encode v [] 0 0 (by norm_num)
  rw [List.append_nil] at h
  rw [h]
  simp

/-- C10: The varint decoder accepts non-canonical encodings:
`parse_varint(0x80 0x00, 0) = (0, 2)` although `encode_varint 0 = [0x00]`;
hence some decodable byte string is not re-produced by encoding its decoded
value, even though the spec's data model calls the encoding canonical. -/
theorem claim_C10_noncanonical_accepted :
    parse_varint [0x80, 0x00] 0 = some (0, 2)
      ∧ encode_varint 0 = [0x00]
      ∧ encode_varint 0 ≠ [0x80, 0x00]
      ∧ ∃ b v n, parse_varint b 0 = some (v, n) ∧ encode_varint v ≠ b := by
  refine ⟨by decide, by simp [encode_varint], by simp [encode_varint],
    [0x80, 0x00], 0, 2, by decide, by simp [encode_varint]⟩

/-- C4: For every non-negative token and action body,
`build_action_packet(token, action_body)` is the byte string
`0x08 0x01`, then `0x10` and the varint of the token, then `0x22`, the
varint of the body length, and the body itself; the three leading tags are
`(1 <<< 3) ||| 0`, `(2 <<< 3) ||| 0` and `(4 <<< 3) ||| 2`. -/
theorem claim_C4_action_packet_layout (token : Nat) (action_body : List Nat) :
    build_action_packet token action_body
      = [(1 <<< 3) ||| 0, 0x01] ++ [(2 <<< 3) ||| 0] ++ encode_varint token
          ++ [(4 <<< 3) ||| 2] ++ encode_varint action_body.length ++ action_body := rfl

/-- C3: `build_brightness_body(brightness_pct, dimming_time_ms)` is a
length-delimited field 18 whose inner content is tag `(2 <<< 3) ||| 0`, the
varint of the brightness, tag `(3 <<< 3) ||| 0`, and the varint of the
dimming time; in particular the two literal capture vectors
`920106103c18a0f736` and `920106106418a0f736` are reproduced. -/
theorem claim_C3_brightness_body_layout :
    (∀ brightness_pct dimming_time_ms : Nat,
      build_brightness_body brightness_pct dimming_time_ms
        = encode_varint ((18 <<< 3) ||| 2)
            ++ encode_varint ([(2 <<< 3) ||| 0] ++ encode_varint brightness_pct
                ++ [(3 <<< 3) ||| 0] ++ encode_varint dimming_time_ms).length
            ++ ([(2 <<< 3) ||| 0] ++ encode_varint brightness_pct
                ++ [(3 <<< 3) ||| 0] ++ encode_varint dimming_time_ms))
      ∧ build_brightness_body 60 900000 = [0x92, 0x01, 0x06, 0x10, 0x3c, 0x18, 0xa0, 0xf7, 0x36]
      ∧ build_brightness_body 100 900000
          = [0x92, 0x01, 0x06, 0x10, 0x64, 0x18, 0xa0, 0xf7, 0x36] := by
  refine ⟨fun brightness_pct dimming_time_ms => rfl, ?_, ?_⟩
  · simp [build_brightness_body, FIELD_18_TAG, encode_varint]
    decide
  · simp [build_brightness_body, FIELD_18_TAG, encode_varint]
    decide

/-- C9: the token-extraction walk is characterised on every input, one
universal lemma per step of the source loop: reaching the end of the buffer
before a varint field 1 yields `none`; a truncated tag varint, a truncated
value varint, or a truncated length varint yields `none`; a varint-typed
field 1 returns its value immediately (first occurrence wins); a
varint-typed field other than 1 is skipped and the walk continues after its
value; a length-delimited field is skipped and the walk continues after its
declared length; an unsupported wire type aborts with `none`.  Concretely,
`extract_token_from_notify(0x08 0x2a) = 42`, the first of several field-1
occurrences wins, and the empty, field-2-only, truncated and
unsupported-wire-type buffers all yield `none`. -/
theorem claim_C9_token_extraction :
    (∀ fuel payload pos, ¬ pos < payload.length →
      extract_token_loop (fuel + 1) payload pos = none)
    ∧ (∀ fuel payload pos, pos < payload.length → parse_varint payload pos = none →
        extract_token_loop (fuel + 1) payload pos = none)
    ∧ (∀ fuel payload pos tag pos1, pos < payload.length →
        parse_varint payload pos = some (tag, pos1) → tag &&& 0x07 = 0 →
        parse_varint payload pos1 = none →
        extract_token_loop (fuel + 1) payload pos = none)
    ∧ (∀ fuel payload pos tag pos1 value pos2, pos < payload.length →
        parse_varint payload pos = some (tag, pos1) → tag &&& 0x07 = 0 →
        tag >>> 3 = 1 → parse_varint payload pos1 = some (value, pos2) →
        extract_token_loop (fuel + 1) payload pos = some value)
    ∧ (∀ fuel payload pos tag pos1 value pos2, pos < payload.length →
        parse_varint payload pos = some (tag, pos1) → tag &&& 0x07 = 0 →
        tag >>> 3 ≠ 1 → parse_varint payload pos1 = some (value, pos2) →
        extract_token_loop (fuel + 1) payload pos = extract_token_loop fuel payload pos2)
    ∧ (∀ fuel payload pos tag pos1, pos < payload.length →
        parse_varint payload pos = some (tag, pos1) → tag &&& 0x07 = 2 →
        parse_varint payload pos1 = none →
        extract_token_loop (fuel + 1) payload pos = none)
    ∧ (∀ fuel payload pos tag pos1 length pos2, pos < payload.length →
        parse_varint payload pos = some (tag, pos1) → tag &&& 0x07 = 2 →
        parse_varint payload pos1 = some (length, pos2) →
        extract_token_loop (fuel + 1) payload pos
          = extract_token_loop fuel payload (pos2 + length))
    ∧ (∀ fuel payload pos tag pos1, pos < payload.length →
        parse_varint payload pos = some (tag, pos1) → tag &&& 0x07 ≠ 0 → tag &&& 0x07 ≠ 2 →
        extract_token_loop (fuel + 1) payload pos = none)
    ∧ extract_token_from_notify [0x08, 0x2a] = some 42
    ∧ extract_token_from_notify [0x08, 0x2a, 0x08, 0x07] = some 42
    ∧ extract_token_from_notify [] = none
    ∧ extract_token_from_notify [0x10, 0x05] = none
    ∧ extract_token_from_notify [0x80] = none
    ∧ extract_token_from_notify [0x08, 0x80] = none
    ∧ extract_token_from_notify [0x0d, 0x01] = none := by
  refine ⟨?_, ?_, ?_, ?_, ?_, ?_, ?_, ?_,
    by decide, by decide, by decide, by decide, by decide, by decide, by decide⟩
  · intro fuel payload pos hlt
    simp only [extract_token_loop]
    rw [if_neg hlt]
  · intro fuel payload pos hlt hpv
    simp only [extract_token_loop]
    rw [if_pos hlt, hpv]
  · intro fuel payload pos tag pos1 hlt hpv1 hw hpv2
    simp only [extract_token_loop]
    rw [if_pos hlt, hpv1]
    simp [hw, hpv2]
  · intro fuel payload pos tag pos1 value pos2 hlt hpv1 hw hfn hpv2
    simp only [extract_token_loop]
    rw [if_pos hlt, hpv1]
    simp [hw, hfn, hpv2]
  · intro fuel payload pos tag pos1 value pos2 hlt hpv1 hw hfn hpv2
    simp only [extract_token_loop]
    rw [if_pos hlt, hpv1]
    simp [hw, hfn, hpv2]
  · intro fuel payload pos tag pos1 hlt hpv1 hw hpv2
    simp only [extract_token_loop]
    rw [if_pos hlt, hpv1]
    simp [hw, hpv2]
  · intro fuel payload pos tag pos1 length pos2 hlt hpv1 hw hpv2
    simp only [extract_token_loop]
    rw [if_pos hlt, hpv1]
    simp [hw, hpv2]
  · intro fuel payload pos tag pos1 hlt hpv1 hw0 hw2
    simp only [extract_token_loop]
    rw [if_pos hlt, hpv1]
    simp [hw0, hw2]

/-- Closed instance of C9's first-occurrence rule: the walk over
`0x08 0x2a` returns 42 at the first varint field 1. -/
theorem claim_C9_witness : extract_token_loop 1 [0x08, 0x2a] 0 = some 42 :=
  claim_C9_token_extraction.2.2.2.1 0 [0x08, 0x2a] 0 8 1 42 2
    (by decide) (by decide) (by decide) (by decide) (by decide)

/-- C6: the field parser terminates on every input and never raises: on a
truncated tag varint, a truncated value varint, a length-delimited field
whose declared length exceeds the remaining buffer, or an unsupported wire
type, the loop stops and returns the field map accumulated so far; and
repeated fields preserve arrival order and count
(`08 01 08 02` yields field 1 mapped to `[1, 2]`). -/
theorem claim_C6_parser_total_and_ordered :
    (∀ fuel data pos fields, pos < data.length → parse_varint data pos = none →
      parse_fields_loop (fuel + 1) data pos fields = fields)
    ∧ (∀ fuel data pos fields tag pos1, pos < data.length →
        parse_varint data pos = some (tag, pos1) → tag &&& 0x07 = 0 →
        parse_varint data pos1 = none →
        parse_fields_loop (fuel + 1) data pos fields = fields)
    ∧ (∀ fuel data pos fields tag pos1 length pos2, pos < data.length →
        parse_varint data pos = some (tag, pos1) → tag &&& 0x07 = 2 →
        parse_varint data pos1 = some (length, pos2) → pos2 + length > data.length →
        parse_fields_loop (fuel + 1) data pos fields = fields)
    ∧ (∀ fuel data pos fields tag pos1, pos < data.length →
        parse_varint data pos = some (tag, pos1) → tag &&& 0x07 ≠ 0 → tag &&& 0x07 ≠ 2 →
        parse_fields_loop (fuel + 1) data pos fields = fields)
    ∧ parse_protobuf_fields [0x08, 0x01, 0x08, 0x02]
        = [(1, [PValue.varint 1, PValue.varint 2])] := by
  refine ⟨?_, ?_, ?_, ?_, by decide⟩
  · intro fuel data pos fields hlt hpv
    simp only [parse_fields_loop]
    rw [if_pos hlt, hpv]
  · intro fuel data pos fields tag pos1 hlt hpv1 hw hpv2
    simp only [parse_fields_loop]
    rw [if_pos hlt, hpv1]
    simp [hw, hpv2]
  · intro fuel data pos fields tag pos1 length pos2 hlt hpv1 hw hpv2 hlen
    simp only [parse_fields_loop]
    rw [if_pos hlt, hpv1]
    simp [hw, hpv2, hlen]
  · intro fuel data pos fields tag pos1 hlt hpv1 hw0 hw2
    simp only [parse_fields_loop]
    rw [if_pos hlt, hpv1]
    simp [hw0, hw2]

/-- Closed instance of C6's stopping behaviour: a lone continuation byte is
a truncated tag varint, so the parser returns the empty map. -/
theorem claim_C6_witness : parse_fields_loop 1 [0x80] 0 [] = [] :=
  claim_C6_parser_total_and_ordered.1 0 [0x80] 0 [] (by decide) (by decide)

theorem update_sf1_configured (s : GlowState) (f : List (Nat × List PValue)) :
    (update_sf1 s f).configured_dimming_time_minutes = s.configured_dimming_time_minutes := by
  unfold update_sf1
  split
  · split <;> rfl
  · rfl

theorem update_sf1_of_varint (s : GlowState) (f : List (Nat × List PValue)) (v : Nat)
    (r : List PValue) (h : getField f 1 = some (PValue.varint v :: r)) :
    (update_sf1 s f).is_on = some (v == 1)
      ∧ (v ≠ 1 → (update_sf1 s f).is_paused = some false) := by
  unfold update_sf1
  rw [h]
  by_cases hv : v = 1 <;> simp [hv]

theorem update_sf2_preserves (s : GlowState) (f : List (Nat × List PValue)) :
    (update_sf2 s f).is_on = s.is_on
      ∧ (update_sf2 s f).is_paused = s.is_paused
      ∧ (update_sf2 s f).configured_dimming_time_minutes
          = s.configured_dimming_time_minutes := by
  unfold update_sf2
  split <;> exact ⟨rfl, rfl, rfl⟩

theorem update_sf3_preserves (s : GlowState) (f : List (Nat × List PValue)) :
    (update_sf3 s f).is_on = s.is_on
      ∧ (update_sf3 s f).is_paused = s.is_paused
      ∧ (update_sf3 s f).dimming_time_minutes = s.dimming_time_minutes := by
  unfold update_sf3
  split
  · split <;> exact ⟨rfl, rfl, rfl⟩
  · exact ⟨rfl, rfl, rfl⟩

theorem update_sf3_configured_of_zero (s : GlowState) (f : List (Nat × List PValue))
    (h : ∀ v r, getField f 3 = some (PValue.varint v :: r) → v = 0) :
    (update_sf3 s f).configured_dimming_time_minutes = s.configured_dimming_time_minutes := by
  unfold update_sf3
  cases hgf : getField f 3 with
  | none => rfl
  | some vs =>
    cases vs with
    | nil => rfl
    | cons hd tl =>
      cases hd with
      | bytes b => rfl
      | varint v =>
        have hv : v = 0 := h v tl hgf
        subst hv
        simp

theorem force_off_preserves (s : GlowState) :
    (force_off_remaining s).is_on = s.is_on
      ∧ (force_off_remaining s).is_paused = s.is_paused
      ∧ (force_off_remaining s).configured_dimming_time_minutes
          = s.configured_dimming_time_minutes := by
  unfold force_off_remaining
  split <;> exact ⟨rfl, rfl, rfl⟩

theorem force_off_dimming_of_off (s : GlowState) (h : s.is_on = some false) :
    (force_off_remaining s).dimming_time_minutes = some 0 := by
  unfold force_off_remaining
  rw [if_pos h]

theorem update_sf4_preserves (s : GlowState) (f : List (Nat × List PValue)) :
    (update_sf4 s f).is_on = s.is_on
      ∧ (update_sf4 s f).dimming_time_minutes = s.dimming_time_minutes
      ∧ (update_sf4 s f).configured_dimming_time_minutes
          = s.configured_dimming_time_minutes := by
  unfold update_sf4
  split <;> exact ⟨rfl, rfl, rfl⟩

theorem update_sf4_paused_of_varint (s : GlowState) (f : List (Nat × List PValue)) (v : Nat)
    (r : List PValue) (h : getField f 4 = some (PValue.varint v :: r)) :
    (update_sf4 s f).is_paused = some (v != 0) := by
  unfold update_sf4
  rw [h]

theorem update_sf4_eq_of_no_varint (s : GlowState) (f : List (Nat × List PValue))
    (h : ∀ v r, getField f 4 ≠ some (PValue.varint v :: r)) :
    update_sf4 s f = s := by
  unfold update_sf4
  cases hgf : getField f 4 with
  | none => rfl
  | some vs =>
    cases vs with
    | nil => rfl
    | cons hd tl =>
      cases hd with
      | bytes b => rfl
      | varint v => exact absurd hgf (h v tl)

theorem update_sf7_preserves (s : GlowState) (f : List (Nat × List PValue)) :
    (update_sf7 s f).is_on = s.is_on
      ∧ (update_sf7 s f).is_paused = s.is_paused
      ∧ (update_sf7 s f).dimming_time_minutes = s.dimming_time_minutes
      ∧ (update_sf7 s f).configured_dimming_time_minutes
          = s.configured_dimming_time_minutes := by
  unfold update_sf7
  split
  · split <;> exact ⟨rfl, rfl, rfl, rfl⟩
  · exact ⟨rfl, rfl, rfl, rfl⟩

/-- C7 amounts to: a decoded state notification whose sub-field 3 is absent,
non-integer, or zero leaves the previously known configured duration
untouched; and concretely, decoding an on/900000 ms notification and then
an off notification without sub-field 3 leaves the configured duration at
15 minutes. -/
theorem claim_C7_configured_only_nonzero :
    (∀ s data fields, parse_state_response data = some fields →
      (∀ v r, getField fields 3 = some (PValue.varint v :: r) → v = 0) →
      ((parse_state_notification s data).2).configured_dimming_time_minutes
        = s.configured_dimming_time_minutes)
    ∧ ((parse_state_notification
          ((parse_state_notification GlowState.init C7_notification_on).2)
          C7_notification_off).2).configured_dimming_time_minutes = some 15 := by
  constructor
  · intro s data fields hp h3
    unfold parse_state_notification
    rw [hp]
    simp only
    rw [(update_sf7_preserves _ _).2.2.2, (update_sf4_preserves _ _).2.2,
      (force_off_preserves _).2.2, update_sf3_configured_of_zero _ _ h3,
      (update_sf2_preserves _ _).2.2, update_sf1_configured]
  · decide

/-- Closed instance of C7's preservation direction: decoding the off
notification (sub-field 3 absent) leaves the initial unknown configured
duration unchanged. -/
theorem claim_C7_witness :
    ((parse_state_notification GlowState.init C7_notification_off).2).configured_dimming_time_minutes
      = GlowState.init.configured_dimming_time_minutes :=
  claim_C7_configured_only_nonzero.1 GlowState.init C7_notification_off
    [(1, [PValue.varint 3])] (by decide) (fun v r h => by simp [getField] at h)

/-- C1 as stated is false on the code: for a notification reporting power
off (sub-field 1 = 3), non-zero remaining time and paused flag 1, the
decoded remaining time is 0 but the paused flag ends up `true`, because the
sub-field 4 step runs after the power-off forcing of the paused flag. -/
theorem claim_C1_counterexample :
    ((parse_state_notification GlowState.init C1_notification).2).is_paused = some true
      ∧ ¬ (((parse_state_notification GlowState.init C1_notification).2).dimming_time_minutes
            = some 0
          ∧ ((parse_state_notification GlowState.init C1_notification).2).is_paused
            = some false) := by
  decide

/-- C1 amended: when the decoded state sub-message reports power off
(sub-field 1 value 3), the remaining dimming time is forced to 0 regardless
of sub-fields 2 and 4; the paused flag is `false` when no integer sub-field
4 is present, but a present integer sub-field 4 is decoded afterwards and
overrides it (non-zero meaning paused). -/
theorem claim_C1_amended (s : GlowState) (data : List Nat)
    (fields : List (Nat × List PValue)) (r1 : List PValue)
    (hp : parse_state_response data = some fields)
    (h1 : getField fields 1 = some (PValue.varint 3 :: r1)) :
    ((parse_state_notification s data).2).dimming_time_minutes = some 0
      ∧ (∀ v r4, getField fields 4 = some (PValue.varint v :: r4) →
          ((parse_state_notification s data).2).is_paused = some (v != 0))
      ∧ ((∀ v r4, getField fields 4 ≠ some (PValue.varint v :: r4)) →
          ((parse_state_notification s data).2).is_paused = some false) := by
  unfold parse_state_notification
  rw [hp]
  simp only
  have hsf1 := update_sf1_of_varint { s with raw_state := some data } fields 3 r1 h1
  have hoff : (update_sf1 { s with raw_state := some data } fields).is_on = some false := by
    rw [hsf1.1]
    rfl
  have hpause1 : (update_sf1 { s with raw_state := some data } fields).is_paused
      = some false := hsf1.2 (by norm_num)
  have hoff3 : (update_sf3
      (update_sf2 (update_sf1 { s with raw_state := some data } fields) fields)
      fields).is_on = some false := by
    rw [(update_sf3_preserves _ _).1, (update_sf2_preserves _ _).1, hoff]
  refine ⟨?_, ?_, ?_⟩
  · rw [(update_sf7_preserves _ _).2.2.1, (update_sf4_preserves _ _).2.1,
      force_off_dimming_of_off _ hoff3]
  · intro v r4 h4
    rw [(update_sf7_preserves _ _).2.1, update_sf4_paused_of_varint _ _ v r4 h4]
  · intro hno
    rw [(update_sf7_preserves _ _).2.1, update_sf4_eq_of_no_varint _ _ hno,
      (force_off_preserves _).2.1, (update_sf3_preserves _ _).2.1,
      (update_sf2_preserves _ _).2.1, hpause1]

/-- Closed instance of the amended C1: decoding the off/paused notification
from the initial state forces the remaining time to 0 while the raised
sub-field 4 yields a paused flag of `true`. -/
theorem claim_C1_amended_witness :
    ((parse_state_notification GlowState.init C1_notification).2).dimming_time_minutes = some 0
      ∧ ((parse_state_notification GlowState.init C1_notification).2).is_paused = some true := by
  have h := claim_C1_amended GlowState.init C1_notification
    [(1, [PValue.varint 3]), (2, [PValue.varint 900000]), (4, [PValue.varint 1])] []
    (by decide) (by decide)
  exact ⟨h.1, h.2.1 1 [] (by decide)⟩

/-- C2 as stated is false on the code: a notification whose sub-field 1
carries the unrecognised value 2 does not leave the power field unchanged;
it sets power to off (here from a previously-on state). -/
theorem claim_C2_counterexample :
    ((parse_state_notification C2_start C2_notification).2).is_on = some false
      ∧ ¬ ((parse_state_notification C2_start C2_notification).2).is_on
          = C2_start.is_on := by
  decide

/-- C2 amended: when decoding a state sub-message whose sub-field 1 starts
with an integer value v, the power field becomes on exactly when v = 1;
every other value (3 or otherwise) sets power to off rather than leaving it
unchanged. -/
theorem claim_C2_amended (s : GlowState) (data : List Nat)
    (fields : List (Nat × List PValue)) (v : Nat) (r1 : List PValue)
    (hp : parse_state_response data = some fields)
    (h1 : getField fields 1 = some (PValue.varint v :: r1)) :
    ((parse_state_notification s data).2).is_on = some (v == 1) := by
  unfold parse_state_notification
  rw [hp]
  simp only
  rw [(update_sf7_preserves _ _).1, (update_sf4_preserves _ _).1,
    (force_off_preserves _).1, (update_sf3_preserves _ _).1, (update_sf2_preserves _ _).1,
    (update_sf1_of_varint { s with raw_state := some data } fields v r1 h1).1]

/-- Closed instance of the amended C2: sub-field 1 value 2 turns a
previously-on state off. -/
theorem claim_C2_amended_witness :
    ((parse_state_notification C2_start C2_notification).2).is_on = some false :=
  claim_C2_amended C2_start C2_notification [(1, [PValue.varint 2])] 2 []
    (by decide) (by decide)

/-- C8: invoking set-dimming-time while the locally known brightness level
is unknown fails with `InvalidArgument` (the `ValueError` of the source),
performs zero transport writes, and leaves the state exactly as it was. -/
theorem claim_C8_dimming_requires_brightness (s : GlowState) (minutes token : Nat)
    (h : s.brightness_level = none) :
    set_dimming_time s minutes token = (s, [], some GlowError.invalidArgument) := by
  unfold set_dimming_time
  rw [h]
  split <;> rfl

/-- Closed instance of C8 at the initial state and a valid dimming time. -/
theorem claim_C8_witness :
    set_dimming_time GlowState.init 30 0 = (GlowState.init, [], some GlowError.invalidArgument) :=
  claim_C8_dimming_requires_brightness GlowState.init 30 0 rfl

end PyCasperGlow
